import Mathlib

/-!
Verification development for the Jaculus VS Code extension
(`src/extension.ts`).  The definitions below are a shallow embedding of the
connection/session state manager and command-dispatch logic of the
`JaculusInterface` class; effects on the managed terminal and on the
key-value `globalState` store are made explicit.
-/

/-- The `LogLevel` string enum of `extension.ts`. -/
inductive LogLevel
  | info
  | verbose
  | debug
  | silly
deriving DecidableEq, Repr

/-- String value of a `LogLevel` member (the TS enum maps each key to the
same-named string, so `LogLevel[this.debugMode]` yields these values). -/
def logLevelStr : LogLevel → String
  | .info => "info"
  | .verbose => "verbose"
  | .debug => "debug"
  | .silly => "silly"

/-- The `ConectionType` enum of `extension.ts` (source spelling kept). -/
inductive ConectionType
  | comPort
  | socket
deriving DecidableEq, Repr

/-- `const DEFAULT_PORT = "17531"` -/
def DEFAULT_PORT : String := "17531"

/-- `const BOARD_INDEX_URL = "https://f.jaculus.org/bin"` -/
def BOARD_INDEX_URL : String := "https://f.jaculus.org/bin"

/-- In-memory fields of the `JaculusInterface` class.  `terminalJaculus`
records whether the terminal handle is non-null. -/
structure JaculusState where
  selectedComPort : Option String
  selectedSocket : Option String
  selectedSocketMemory : List String
  lastSelectedConnection : Option ConectionType
  minimalMode : Bool
  debugMode : LogLevel
  terminalJaculus : Bool
  jacToolCommand : String
deriving DecidableEq, Repr

/-- The persisted key-value store (`context.globalState`), one optional slot
per `ContextKey` used by `extension.ts`.  `none` models an absent key. -/
structure GlobalState where
  selectedComPort : Option String
  selectedSocket : Option String
  selectedSocketMemory : Option (List String)
  lastSelectedConnection : Option ConectionType
  minimalMode : Option Bool
  debugMode : Option LogLevel
deriving DecidableEq, Repr

/-- JavaScript `x || null` on an optional string: `undefined` and the empty
string (both falsy) collapse to `null`. -/
def jsOrNull : Option String → Option String
  | none => none
  | some s => if s = "" then none else some s

/-- JavaScript falsiness test `!x` for `string | null` values. -/
def jsFalsyStr : Option String → Bool
  | none => true
  | some s => s == ""

/-- The field initialisation in the `JaculusInterface` constructor: every
persisted key is read with a `|| default` fallback.  `existingTerminal`
models whether a terminal named "Jaculus" survives from a previous session. -/
def constructorLoad (g : GlobalState) (existingTerminal : Bool) : JaculusState :=
  { selectedComPort := jsOrNull g.selectedComPort
    selectedSocket := jsOrNull g.selectedSocket
    selectedSocketMemory := g.selectedSocketMemory.getD []
    lastSelectedConnection := g.lastSelectedConnection
    minimalMode := g.minimalMode.getD false
    debugMode := g.debugMode.getD LogLevel.info
    terminalJaculus := existingTerminal
    jacToolCommand := "npx jac" }

/-- Observable actions performed on the managed "Jaculus" terminal. -/
inductive TermEvent
  | createTerminal
  | sendText (text : String) (addNewLine : Bool)
  | waitMs (ms : Nat)
  | showTerminal
deriving DecidableEq, Repr

/-- `String.fromCharCode(3)` — the ASCII ETX stop signal. -/
def etxString : String := String.mk [Char.ofNat 3]

/-- `monitorStop()`: sends ETX into the terminal when a terminal handle
exists, otherwise does nothing. -/
def monitorStop (st : JaculusState) : List TermEvent :=
  if st.terminalJaculus then [TermEvent.sendText etxString true] else []

/-- `stopRunningMonitor()`: `monitorStop` followed by a 200 ms sleep. -/
def stopRunningMonitor (st : JaculusState) : List TermEvent :=
  monitorStop st ++ [TermEvent.waitMs 200]

/-- JavaScript `Array.prototype.join(' ')`. -/
def joinSpace : List String → String
  | [] => ""
  | [s] => s
  | s :: rest => s ++ " " ++ joinSpace rest

/-- The command-line template shared by terminal dispatch (line 250) and
subprocess dispatch (line 256) of `extension.ts`:
the interpolation of jacToolCommand, port.join(' '), command, args.join(' '). -/
def composeCommandLine (jac : String) (port : List String) (command : String)
    (args : List String) : String :=
  jac ++ " " ++ joinSpace port ++ " " ++ command ++ " " ++ joinSpace args

/-- The argument transformation inside `runJaculusCommandInTerminal`:
`if (this.debugMode !== LogLevel.info) args.push('--log-level', str)`. -/
def dispatchedArgs (st : JaculusState) (args : List String) : List String :=
  if st.debugMode ≠ LogLevel.info then
    args ++ ["--log-level", logLevelStr st.debugMode]
  else args

/-- `runJaculusCommandInTerminal(command, port, args, stopPreviousCommand)`:
lazily creates the terminal, appends the log-level args, optionally stops a
previous command (ETX + 200 ms), shows the terminal and sends the composed
command line.  Returns the updated state and the terminal event trace. -/
def runJaculusCommandInTerminal (st : JaculusState) (command : String)
    (port : List String) (args : List String) (stopPreviousCommand : Bool) :
    JaculusState × List TermEvent :=
  let st1 := if st.terminalJaculus then st else { st with terminalJaculus := true }
  let createEvents : List TermEvent :=
    if st.terminalJaculus then [] else [TermEvent.createTerminal]
  let fullArgs := dispatchedArgs st args
  let stopEvents := if stopPreviousCommand then stopRunningMonitor st1 else []
  (st1,
    createEvents ++ stopEvents ++
      [TermEvent.showTerminal,
       TermEvent.sendText (composeCommandLine st.jacToolCommand port command fullArgs) true])

/-- The `fullCommand` string built by `runJaculusAsSubprocess` (line 256);
note that, unlike the terminal path, no log-level handling is applied. -/
def subprocessFullCommand (st : JaculusState) (command : String)
    (port : List String) (args : List String) : String :=
  composeCommandLine st.jacToolCommand port command args

/-- `getConnectedPort()`: dispatches on `lastSelectedConnection`; the `!`
non-null assertions of the source are modelled with `Option.getD ""`.
The `else` branch shows an error message and throws. -/
def getConnectedPort (st : JaculusState) : Except String (List String) :=
  if st.lastSelectedConnection = some ConectionType.comPort then
    Except.ok ["--port", st.selectedComPort.getD ""]
  else if st.lastSelectedConnection = some ConectionType.socket then
    Except.ok ["--socket", st.selectedSocket.getD ""]
  else
    Except.error "Jaculus: No port selected"

/-- `flash()`: obtains connection args, then dispatches `flash` in the
terminal.  A thrown `getConnectedPort` error propagates and nothing is
written to the terminal. -/
def flash (st : JaculusState) : Except String (JaculusState × List TermEvent) :=
  match getConnectedPort st with
  | Except.error e => Except.error e
  | Except.ok port => Except.ok (runJaculusCommandInTerminal st "flash" port [] true)

/-- Characters matched by the JavaScript regex class whitespace (ASCII
range), used by `trim`, `split(/\s\s+/)` and related string operations. -/
def jsWhitespace (c : Char) : Bool :=
  c == ' ' || c == '\t' || c == '\n' || c == '\r' || c == Char.ofNat 11 || c == Char.ofNat 12

/-- JavaScript `String.prototype.trim()`. -/
def jsTrim (s : String) : String :=
  String.mk (((s.data.dropWhile jsWhitespace).reverse.dropWhile jsWhitespace).reverse)

/-- JavaScript `String.prototype.includes(needle)`. -/
def strContains (haystack needle : String) : Bool :=
  (List.range (haystack.data.length + 1)).any
    (fun i => needle.data.isPrefixOf (haystack.data.drop i))

/-- The socket-input normalisation of `selectPort` (lines 120-127):
an input containing a colon is stored verbatim, otherwise the default port
is appended as a new interpolation segment. -/
def normalizeSocketInput (socketTmp : String) : String :=
  if strContains socketTmp ":" then socketTmp
  else socketTmp ++ (":" ++ DEFAULT_PORT)

/-- The recent-socket memory update of `selectPort` (lines 133-145):
an already-present entry is filtered out, the socket is unshifted to the
front, and an array grown past 5 entries loses its last element. -/
def addSocketToMemory (memory : List String) (socket : String) : List String :=
  let m1 := if memory.contains socket then memory.filter (fun s => s != socket) else memory
  let m2 := socket :: m1
  if m2.length > 5 then m2.dropLast else m2

/-- The socket branch of `selectPort` (lines 120-148 plus line 161): raw
input is normalised, stored in memory and in both the in-memory state and the
persisted store, and the socket variant becomes the last-selected one.
Neither `selectedComPort` slot is touched. -/
def selectSocketAction (st : JaculusState) (g : GlobalState) (socketTmp : String) :
    JaculusState × GlobalState :=
  let sock := normalizeSocketInput socketTmp
  let memory := addSocketToMemory st.selectedSocketMemory sock
  ({ st with
      selectedSocket := some sock
      selectedSocketMemory := memory
      lastSelectedConnection := some ConectionType.socket },
   { g with
      selectedSocket := some sock
      selectedSocketMemory := some memory
      lastSelectedConnection := some ConectionType.socket })

/-- The serial-port branch of `selectPort` (lines 150-161): the picked label
becomes the selected COM port in state and store and the COM-port variant
becomes the last-selected one.  Neither `selectedSocket` slot is touched. -/
def selectComPortAction (st : JaculusState) (g : GlobalState) (label : String) :
    JaculusState × GlobalState :=
  ({ st with
      selectedComPort := some label
      lastSelectedConnection := some ConectionType.comPort },
   { g with
      selectedComPort := some label
      lastSelectedConnection := some ConectionType.comPort })

/-- `selectLogLevel()` (lines 272-281): a confirmed quick-pick choice only
assigns the in-memory `debugMode` field and refreshes the view; the source
contains no `globalState.update(ContextKey.debugMode, ...)` call, so the
store is returned unchanged. -/
def selectLogLevel (st : JaculusState) (g : GlobalState) (selected : Option LogLevel) :
    JaculusState × GlobalState :=
  match selected with
  | some lvl => ({ st with debugMode := lvl }, g)
  | none => (st, g)

/-- The `SerialPortInfo` record of `extension.ts`. -/
structure SerialPortInfo where
  path : String
  manufacturer : Option String
deriving DecidableEq, Repr

/-- JavaScript `input.split('\n')`: every occurrence splits, empty pieces
are kept. -/
def splitLinesAux : List Char → List Char → List String
  | [], acc => [String.mk acc]
  | c :: rest, acc =>
    if c = '\n' then String.mk acc :: splitLinesAux rest []
    else splitLinesAux rest (acc ++ [c])

/-- `input.split('\n')` on a string. -/
def splitNewlines (s : String) : List String := splitLinesAux s.data []

/-- Engine of JavaScript `line.split(/\s\s+/)`: a maximal run of two or more
whitespace characters separates tokens, a lone whitespace character stays
inside its token.  `acc` is the current token, `pend` the whitespace run
currently being scanned. -/
def splitRunsAux : List Char → List Char → List Char → List String
  | [], acc, pend =>
    if pend.length ≥ 2 then [String.mk acc, ""]
    else [String.mk (acc ++ pend)]
  | c :: rest, acc, pend =>
    if jsWhitespace c then splitRunsAux rest acc (pend ++ [c])
    else if pend.length ≥ 2 then String.mk acc :: splitRunsAux rest [c] []
    else splitRunsAux rest (acc ++ pend ++ [c]) []

/-- `line.split(/\s\s+/)` — split on two or more consecutive whitespace. -/
def splitOnMultiSpace (s : String) : List String := splitRunsAux s.data [] []

/-- One data row of `parseSerialPorts` (lines 314-317): first token is the
path, the second token (when the split produced one) the manufacturer. -/
def parseRow (line : String) : SerialPortInfo :=
  { path := (splitOnMultiSpace line).headD ""
    manufacturer :=
      if (splitOnMultiSpace line).length > 1 then (splitOnMultiSpace line)[1]? else none }

/-- The row loop of `parseSerialPorts` (lines 305-319): each line is
trimmed, a literal `Done` stops parsing, empty lines are skipped, other
lines become entries. -/
def parseSerialPortLines : List String → List SerialPortInfo
  | [] => []
  | l :: rest =>
    if jsTrim l = "Done" then []
    else if (jsTrim l).length > 0 then parseRow (jsTrim l) :: parseSerialPortLines rest
    else parseSerialPortLines rest

/-- `parseSerialPorts(input)`: split into lines, skip the two header lines,
parse data rows until the `Done` sentinel. -/
def parseSerialPorts (input : String) : List SerialPortInfo :=
  parseSerialPortLines ((splitNewlines input).drop 2)

/-- The result messages a wifi subprocess handler can show. -/
inductive UserMessage
  | errorMsg (text : String)
  | infoMsg (text : String)
deriving DecidableEq, Repr

/-- Whether a `UserMessage` is the error variant. -/
def UserMessage.isError : UserMessage → Bool
  | .errorMsg _ => true
  | .infoMsg _ => false

/-- The continuation of `wifiRm` (lines 403-409) applied to the subprocess
result: the exit code (undefined modelled as `none`) alone decides between
the error and the success notification. -/
def wifiRmHandler (ssid : String) (code : Option Int) (stderr : String) : UserMessage :=
  if code ≠ some 0 then UserMessage.errorMsg ("Error: " ++ stderr)
  else UserMessage.infoMsg ("Removed WiFi network: " ++ ssid)

/-- The continuation of `wifiSta` (lines 414-420). -/
def wifiStaHandler (code : Option Int) (stderr : String) : UserMessage :=
  if code ≠ some 0 then UserMessage.errorMsg ("Error: " ++ stderr)
  else UserMessage.infoMsg "Connected to WiFi network"

/-- The continuation of `wifiDisable` (lines 425-431). -/
def wifiDisableHandler (code : Option Int) (stderr : String) : UserMessage :=
  if code ≠ some 0 then UserMessage.errorMsg ("Error: " ++ stderr)
  else UserMessage.infoMsg "Disabled WiFi"

/-- The user-interaction outcomes consumed by `installJaculusBoardVersion`:
the fetched boards index (as board-name/id pairs) and the results of the
quick-pick and input-box prompts, `none` meaning dismissal. -/
structure InstallChoices where
  boardsIndex : List (String × String)
  boardOrCustomUrl : Option String
  customUrlInput : Option String
  selectedVersion : Option String
  noErase : Option String
deriving DecidableEq, Repr

/-- Observable steps of `installJaculusBoardVersion`, in program order. -/
inductive InstallEffect
  | errorMsg (text : String)
  | fetchBoardsIndex
  | quickPickBoard
  | inputCustomUrl
  | fetchVersions (boardId : String)
  | quickPickVersion
  | quickPickErase
  | terminalDispatch (events : List TermEvent)
  | infoMsg (text : String)
deriving DecidableEq, Repr

/-- Tail of `installJaculusBoardVersion` (lines 548-552): the erase prompt,
the connection-args lookup (whose thrown error is caught by the surrounding
`try` and reported as a generic failure), and the `install` dispatch. -/
def installDispatch (st : JaculusState) (pre : List InstallEffect)
    (firmwareUrl : String) (noErase : Option String) :
    JaculusState × List InstallEffect :=
  match getConnectedPort st with
  | Except.error e =>
      (st, pre ++ [InstallEffect.quickPickErase, InstallEffect.errorMsg e,
                   InstallEffect.errorMsg "Error while installing firmware"])
  | Except.ok port =>
      let r := runJaculusCommandInTerminal st "install" port
        ["--package",
         "\"" ++ firmwareUrl ++ "\" " ++ (if noErase = some "No" then "--no-erase" else "")]
        true
      (r.1, pre ++ [InstallEffect.quickPickErase, InstallEffect.terminalDispatch r.2,
                    InstallEffect.infoMsg ("Installing from " ++ firmwareUrl)])

/-- `installJaculusBoardVersion()` (lines 499-556): refuses up front when no
COM port is set (JavaScript falsiness of `this.selectedComPort`), otherwise
walks the board/custom-URL menus to a firmware URL and dispatches `install`
with whatever connection args `getConnectedPort` yields. -/
def installJaculusBoardVersion (st : JaculusState) (c : InstallChoices) :
    JaculusState × List InstallEffect :=
  if jsFalsyStr st.selectedComPort then
    (st, [InstallEffect.errorMsg "Please select a COM port before installing firmware"])
  else
    match c.boardOrCustomUrl with
    | none =>
        (st, [InstallEffect.fetchBoardsIndex, InstallEffect.quickPickBoard,
              InstallEffect.errorMsg "Please select a board or enter a custom URL"])
    | some pick =>
        if pick = "Custom URL" then
          let firmwareUrl := c.customUrlInput.getD ""
          if firmwareUrl = "" then
            (st, [InstallEffect.fetchBoardsIndex, InstallEffect.quickPickBoard,
                  InstallEffect.inputCustomUrl, InstallEffect.errorMsg "Please enter a valid URL"])
          else
            installDispatch st
              [InstallEffect.fetchBoardsIndex, InstallEffect.quickPickBoard,
               InstallEffect.inputCustomUrl] firmwareUrl c.noErase
        else
          match (c.boardsIndex.find? (fun b => b.fst == pick)).map Prod.snd with
          | none =>
              (st, [InstallEffect.fetchBoardsIndex, InstallEffect.quickPickBoard,
                    InstallEffect.errorMsg "Error fetching board ID"])
          | some boardId =>
              match c.selectedVersion with
              | none =>
                  (st, [InstallEffect.fetchBoardsIndex, InstallEffect.quickPickBoard,
                        InstallEffect.fetchVersions boardId, InstallEffect.quickPickVersion,
                        InstallEffect.errorMsg "No version selected"])
              | some v =>
                  installDispatch st
                    [InstallEffect.fetchBoardsIndex, InstallEffect.quickPickBoard,
                     InstallEffect.fetchVersions boardId, InstallEffect.quickPickVersion]
                    (BOARD_INDEX_URL ++ "/" ++ boardId ++ "/" ++ boardId ++ "-" ++ v ++ ".tar.gz")
                    c.noErase

/-! ### Helper lemmas -/

/-- Picking elements 1, 2 and 4 of a four-element suffix is a sublist. -/
theorem sublist_stop_wait_send (pre : List TermEvent) (a b c d : TermEvent) :
    [a, b, d].Sublist (pre ++ [a, b, c, d]) := by
  induction pre with
  | nil => exact (((List.Sublist.refl [d]).cons c).cons₂ b).cons₂ a
  | cons x xs ih => exact ih.cons x

/-- `joinSpace` on a list known to continue unfolds by one separator. -/
theorem joinSpace_cons_ne (x : String) (l : List String) (h : l ≠ []) :
    joinSpace (x :: l) = x ++ " " ++ joinSpace l := by
  cases l with
  | nil => exact absurd rfl h
  | cons y ys => rfl

/-- Joining a list ending in two extra elements puts the space-joined pair
at the end of the character data. -/
theorem joinSpace_append_two (args : List String) (a b : String) :
    ∃ pre : List Char,
      (joinSpace (args ++ [a, b])).data = pre ++ (a.data ++ (' ' :: b.data)) := by
  induction args with
  | nil =>
      refine ⟨[], ?_⟩
      have hsp : (" " : String).data = [' '] := rfl
      simp [joinSpace, hsp]
  | cons x xs ih =>
      obtain ⟨pre, hp⟩ := ih
      refine ⟨x.data ++ (' ' :: pre), ?_⟩
      rw [List.cons_append, joinSpace_cons_ne x _ (by simp)]
      have hsp : (" " : String).data = [' '] := rfl
      simp [hsp, hp, List.append_assoc]

/-- A string whose character data embeds the needle's data is a
`strContains` hit. -/
theorem strContains_of_data_eq (h n : String) (pre suf : List Char)
    (hd : h.data = pre ++ (n.data ++ suf)) : strContains h n = true := by
  unfold strContains
  rw [List.any_eq_true]
  refine ⟨pre.length, List.mem_range.mpr ?_, ?_⟩
  · have hx : h.data.length = pre.length + (n.data.length + suf.length) := by
      rw [hd]
      simp
    omega
  · rw [hd, List.drop_left]
    simp [List.isPrefixOf_iff_prefix]

/-! ### Claims -/

/-- C1: the claim asserts that a dispatch performed while no monitor is
streaming (state `Idle`) sends the new command line immediately and sends no
stop signal.  In the code `runJaculusCommandInTerminal` calls
`stopRunningMonitor` unconditionally, and the terminal handle always exists
at that point, so even on a fresh state on which no monitor-class command
was ever dispatched the ETX stop signal is sent: the claim is false. -/
theorem c1_counterexample :
    TermEvent.sendText etxString true ∈
      (runJaculusCommandInTerminal
        ⟨none, none, [], none, false, LogLevel.info, false, "npx jac"⟩
        "build" [] [] true).2 := by decide

/-- C1 (amended): every interactive dispatch with the default
`stopPreviousCommand = true` — regardless of any monitoring state, which the
code does not track — sends the ETX stop signal, waits 200 ms, and only then
sends the new command line. -/
theorem c1_stop_signal_always_precedes_dispatch (st : JaculusState)
    (command : String) (port args : List String) :
    [TermEvent.sendText etxString true, TermEvent.waitMs 200,
     TermEvent.sendText
       (composeCommandLine st.jacToolCommand port command (dispatchedArgs st args)) true].Sublist
      (runJaculusCommandInTerminal st command port args true).2 := by
  by_cases h : st.terminalJaculus
  · have he : (runJaculusCommandInTerminal st command port args true).2 =
        [] ++ [TermEvent.sendText etxString true, TermEvent.waitMs 200,
         TermEvent.showTerminal,
         TermEvent.sendText
           (composeCommandLine st.jacToolCommand port command (dispatchedArgs st args)) true] := by
      simp [runJaculusCommandInTerminal, stopRunningMonitor, monitorStop, h]
    rw [he]
    exact sublist_stop_wait_send [] _ _ _ _
  · have he : (runJaculusCommandInTerminal st command port args true).2 =
        [TermEvent.createTerminal] ++ [TermEvent.sendText etxString true, TermEvent.waitMs 200,
         TermEvent.showTerminal,
         TermEvent.sendText
           (composeCommandLine st.jacToolCommand port command (dispatchedArgs st args)) true] := by
      simp [runJaculusCommandInTerminal, stopRunningMonitor, monitorStop, h]
    rw [he]
    exact sublist_stop_wait_send [TermEvent.createTerminal] _ _ _ _

/-- C2: `getConnectedPort` yields `["--port", path]` for the serial-port
variant and `["--socket", sock]` for the socket variant; with no variant
selected it fails with the no-port error, the failure propagates out of
`flash`, and no terminal event is produced (the dispatch is aborted). -/
theorem c2_connection_args (st : JaculusState) :
    (∀ p, st.lastSelectedConnection = some ConectionType.comPort →
        st.selectedComPort = some p →
        getConnectedPort st = Except.ok ["--port", p])
  ∧ (∀ s, st.lastSelectedConnection = some ConectionType.socket →
        st.selectedSocket = some s →
        getConnectedPort st = Except.ok ["--socket", s])
  ∧ (st.lastSelectedConnection = none →
        getConnectedPort st = Except.error "Jaculus: No port selected"
      ∧ flash st = Except.error "Jaculus: No port selected") := by
  refine ⟨?_, ?_, ?_⟩
  · intro p h1 h2
    simp [getConnectedPort, h1, h2]
  · intro s h1 h2
    simp [getConnectedPort, h1, h2]
  · intro h1
    constructor
    · simp [getConnectedPort, h1]
    · simp [flash, getConnectedPort, h1]

/-- C2 witness: concrete selected-port, selected-socket and never-selected
states. -/
theorem c2_witness :
    getConnectedPort
      ⟨some "/dev/ttyUSB0", none, [], some ConectionType.comPort, false, LogLevel.info, false, "npx jac"⟩
      = Except.ok ["--port", "/dev/ttyUSB0"]
  ∧ getConnectedPort
      ⟨none, some "10.0.0.1:17531", [], some ConectionType.socket, false, LogLevel.info, false, "npx jac"⟩
      = Except.ok ["--socket", "10.0.0.1:17531"]
  ∧ flash ⟨none, none, [], none, false, LogLevel.info, false, "npx jac"⟩
      = Except.error "Jaculus: No port selected" :=
  ⟨(c2_connection_args _).1 "/dev/ttyUSB0" rfl rfl,
   (c2_connection_args _).2.1 "10.0.0.1:17531" rfl rfl,
   ((c2_connection_args _).2.2 rfl).2⟩

/-- C3: the claim asserts that selecting a serial port clears any previously
selected socket.  In the code the serial-port branch of `selectPort` never
touches `selectedSocket`: on a state holding a previously selected socket
the socket survives the COM-port selection, so the claim is false. -/
theorem c3_counterexample :
    ¬ ((selectComPortAction
        ⟨none, some "10.0.0.1:17531", ["10.0.0.1:17531"], some ConectionType.socket,
         false, LogLevel.info, false, "npx jac"⟩
        ⟨none, some "10.0.0.1:17531", some ["10.0.0.1:17531"], some ConectionType.socket,
         none, none⟩
        "/dev/ttyUSB0").1.selectedSocket = none) := by decide

/-- C3 (amended): a successful selection stores its own value, leaves the
other variant's stored value untouched, and marks exactly its own variant as
the last-selected connection (in memory and in the persisted store), so the
last-selected tag alone decides which variant `getConnectedPort` uses. -/
theorem c3_selection_sets_authoritative_tag (st : JaculusState) (g : GlobalState)
    (label raw : String) :
    ((selectComPortAction st g label).1.lastSelectedConnection = some ConectionType.comPort
  ∧ (selectComPortAction st g label).2.lastSelectedConnection = some ConectionType.comPort
  ∧ (selectComPortAction st g label).1.selectedComPort = some label
  ∧ (selectComPortAction st g label).1.selectedSocket = st.selectedSocket
  ∧ getConnectedPort (selectComPortAction st g label).1 = Except.ok ["--port", label])
  ∧ ((selectSocketAction st g raw).1.lastSelectedConnection = some ConectionType.socket
  ∧ (selectSocketAction st g raw).2.lastSelectedConnection = some ConectionType.socket
  ∧ (selectSocketAction st g raw).1.selectedSocket = some (normalizeSocketInput raw)
  ∧ (selectSocketAction st g raw).1.selectedComPort = st.selectedComPort
  ∧ getConnectedPort (selectSocketAction st g raw).1
      = Except.ok ["--socket", normalizeSocketInput raw]) := by
  refine ⟨⟨rfl, rfl, rfl, rfl, ?_⟩, ⟨rfl, rfl, rfl, rfl, ?_⟩⟩
  · simp [getConnectedPort, selectComPortAction]
  · simp [getConnectedPort, selectSocketAction]

/-- C4: the claim asserts that every dispatched command — including the
captured-subprocess ones — gains `--log-level <value>` when the stored level
is not `info`.  `runJaculusAsSubprocess` composes its command line without
any log-level handling: with level `debug`, the wifi-sta subprocess line
contains no `--log-level`, so the claim is false. -/
theorem c4_counterexample :
    strContains
      (subprocessFullCommand
        ⟨some "/dev/ttyUSB0", none, [], some ConectionType.comPort,
         false, LogLevel.debug, true, "npx jac"⟩
        "wifi-sta" ["--port", "/dev/ttyUSB0"] [])
      "--log-level" = false := by decide

/-- C4 (amended): terminal-interactive dispatch appends
`--log-level <value>` to the argument list exactly when the stored level is
not `info` (the sent command line is composed from the transformed
arguments), while captured-subprocess dispatch composes its command line
independently of the stored level and never adds a `--log-level` flag. -/
theorem c4_log_level_only_on_terminal_dispatch (st : JaculusState)
    (command : String) (port args : List String) :
    (st.debugMode ≠ LogLevel.info →
        dispatchedArgs st args = args ++ ["--log-level", logLevelStr st.debugMode])
  ∧ (st.debugMode = LogLevel.info → dispatchedArgs st args = args)
  ∧ (runJaculusCommandInTerminal st command port args true).2.getLast?
      = some (TermEvent.sendText
          (composeCommandLine st.jacToolCommand port command (dispatchedArgs st args)) true)
  ∧ (st.debugMode ≠ LogLevel.info →
      strContains (composeCommandLine st.jacToolCommand port command (dispatchedArgs st args))
        ("--log-level" ++ (" " ++ logLevelStr st.debugMode)) = true)
  ∧ (∀ lvl, subprocessFullCommand { st with debugMode := lvl } command port args
      = subprocessFullCommand st command port args) := by
  refine ⟨?_, ?_, ?_, ?_, ?_⟩
  · intro h
    simp [dispatchedArgs, h]
  · intro h
    simp [dispatchedArgs, h]
  · by_cases h : st.terminalJaculus <;>
      simp [runJaculusCommandInTerminal, stopRunningMonitor, monitorStop, h, List.getLast?]
  · intro h
    have hargs : dispatchedArgs st args = args ++ ["--log-level", logLevelStr st.debugMode] := by
      simp [dispatchedArgs, h]
    obtain ⟨pre0, hp0⟩ := joinSpace_append_two args "--log-level" (logLevelStr st.debugMode)
    apply strContains_of_data_eq _ _
      ((st.jacToolCommand ++ " " ++ joinSpace port ++ " " ++ command ++ " ").data ++ pre0) []
    rw [composeCommandLine, hargs]
    have hsp : (" " : String).data = [' '] := rfl
    simp [hsp, hp0, List.append_assoc]
  · intro lvl
    rfl

/-- C4 witness: with level `debug` the terminal dispatch of `build` gains
the `--log-level debug` arguments. -/
theorem c4_witness :
    dispatchedArgs
      ⟨none, none, [], none, false, LogLevel.debug, false, "npx jac"⟩ []
      = [] ++ ["--log-level",
          logLevelStr (JaculusState.debugMode
            ⟨none, none, [], none, false, LogLevel.debug, false, "npx jac"⟩)] :=
  (c4_log_level_only_on_terminal_dispatch
    ⟨none, none, [], none, false, LogLevel.debug, false, "npx jac"⟩ "build" [] []).1
    (by decide)

/-- C5: a non-blank socket input containing a colon is stored unchanged;
one without a colon gains the default port as the suffix `:17531`. -/
theorem c5_socket_default_port (s : String) (_hnb : jsTrim s ≠ "") :
    (strContains s ":" = true → normalizeSocketInput s = s)
  ∧ (strContains s ":" = false → normalizeSocketInput s = s ++ ":17531") := by
  constructor
  · intro h
    simp [normalizeSocketInput, h]
  · intro h
    have hp : (":" ++ DEFAULT_PORT : String) = ":17531" := rfl
    simp [normalizeSocketInput, h, hp]

/-- C5 witness: `10.0.0.5` has no colon and gains `:17531`; `1.2.3.4:80`
keeps its colon and is stored unchanged. -/
theorem c5_witness :
    normalizeSocketInput "10.0.0.5" = "10.0.0.5" ++ ":17531"
  ∧ normalizeSocketInput "1.2.3.4:80" = "1.2.3.4:80" :=
  ⟨(c5_socket_default_port "10.0.0.5" (by decide)).2 (by decide),
   (c5_socket_default_port "1.2.3.4:80" (by decide)).1 (by decide)⟩

/-- C7: the claim says the chosen log level is written to the persisted
key-value store and survives a restart.  `selectLogLevel` assigns only the
in-memory field: starting from an empty store, choosing `debug` takes effect
in memory, leaves the store untouched, and a restart (constructor re-read of
the store) falls back to `info` — the persistence the claim (and the
constructor's own read of `ContextKey.debugMode`) expects never happens. -/
theorem c7_log_level_not_persisted :
    ((selectLogLevel (constructorLoad ⟨none, none, none, none, none, none⟩ false)
        ⟨none, none, none, none, none, none⟩ (some LogLevel.debug)).1.debugMode
      = LogLevel.debug)
  ∧ ((selectLogLevel (constructorLoad ⟨none, none, none, none, none, none⟩ false)
        ⟨none, none, none, none, none, none⟩ (some LogLevel.debug)).2
      = ⟨none, none, none, none, none, none⟩)
  ∧ ((constructorLoad
        (selectLogLevel (constructorLoad ⟨none, none, none, none, none, none⟩ false)
          ⟨none, none, none, none, none, none⟩ (some LogLevel.debug)).2 false).debugMode
      = LogLevel.info) := by
  refine ⟨rfl, rfl, rfl⟩

/-- C8: the claim says a captured wifi subprocess is treated as failure
exactly when the exit code is non-zero or stderr text is present.  The
handlers test only `code !== 0`: with exit code 0 and non-empty stderr the
success notification is shown, so the claim is false. -/
theorem c8_counterexample :
    (wifiStaHandler (some 0) "boot warning").isError = false
  ∧ "boot warning" ≠ "" := by decide

/-- C8 (amended): each captured wifi subprocess result (`wifi-rm`,
`wifi-sta`, `wifi-disable`) is treated as failure — with the captured stderr
surfaced — exactly when the exit code differs from 0 (a missing code counts
as failure); exit code 0 means success regardless of stderr content. -/
theorem c8_failure_iff_nonzero_exit (ssid : String) (code : Option Int) (stderr : String) :
    ((wifiRmHandler ssid code stderr).isError = true ↔ code ≠ some 0)
  ∧ ((wifiStaHandler code stderr).isError = true ↔ code ≠ some 0)
  ∧ ((wifiDisableHandler code stderr).isError = true ↔ code ≠ some 0)
  ∧ (code ≠ some 0 →
        wifiRmHandler ssid code stderr = UserMessage.errorMsg ("Error: " ++ stderr)
      ∧ wifiStaHandler code stderr = UserMessage.errorMsg ("Error: " ++ stderr)
      ∧ wifiDisableHandler code stderr = UserMessage.errorMsg ("Error: " ++ stderr))
  ∧ (code = some 0 →
        wifiRmHandler ssid code stderr = UserMessage.infoMsg ("Removed WiFi network: " ++ ssid)
      ∧ wifiStaHandler code stderr = UserMessage.infoMsg "Connected to WiFi network"
      ∧ wifiDisableHandler code stderr = UserMessage.infoMsg "Disabled WiFi") := by
  by_cases h : code = some 0
  · refine ⟨?_, ?_, ?_, ?_, ?_⟩ <;>
      simp [wifiRmHandler, wifiStaHandler, wifiDisableHandler, UserMessage.isError, h]
  · refine ⟨?_, ?_, ?_, ?_, ?_⟩ <;>
      simp [wifiRmHandler, wifiStaHandler, wifiDisableHandler, UserMessage.isError, h]

/-- C8 witness: an undefined exit code (process-level failure) is surfaced
as an error carrying the captured stderr text. -/
theorem c8_witness :
    wifiStaHandler none "jac: device not reachable"
      = UserMessage.errorMsg ("Error: " ++ "jac: device not reachable") :=
  ((c8_failure_iff_nonzero_exit "net" none "jac: device not reachable").2.2.2.1
    (by decide)).2.1

/-- C6: on a deduplicated recent-socket list of at most 5 entries, adding a
socket puts it at the front; re-adding an existing entry removes its old
occurrence (no duplicate arises, the entry set is unchanged); adding a new
entry to a non-full list just prepends it; adding a new entry to a full list
evicts the oldest (last) entry; the result never exceeds 5 entries and stays
deduplicated. -/
theorem c6_recent_socket_list (memory : List String) (socket : String)
    (hnd : memory.Nodup) (hlen : memory.length ≤ 5) :
    ((addSocketToMemory memory socket).head? = some socket)
  ∧ (addSocketToMemory memory socket).Nodup
  ∧ (addSocketToMemory memory socket).length ≤ 5
  ∧ (socket ∈ memory →
      addSocketToMemory memory socket = socket :: memory.filter (fun s => s != socket)
      ∧ ∀ x, (x ∈ addSocketToMemory memory socket ↔ x ∈ memory))
  ∧ (socket ∉ memory → memory.length < 5 →
      addSocketToMemory memory socket = socket :: memory)
  ∧ (socket ∉ memory → memory.length = 5 →
      addSocketToMemory memory socket = socket :: memory.dropLast) := by
  by_cases hm : socket ∈ memory
  · have hpos : 0 < memory.length := List.length_pos.mpr (List.ne_nil_of_mem hm)
    have hc : memory.contains socket = true := by simp [hm]
    have hfil : memory.filter (fun s => s != socket) = memory.erase socket :=
      (hnd.erase_eq_filter socket).symm
    have hflen : (memory.filter (fun s => s != socket)).length = memory.length - 1 := by
      rw [hfil]
      exact List.length_erase_of_mem hm
    have hngt : ¬ ((socket :: memory.filter (fun s => s != socket)).length > 5) := by
      simp only [List.length_cons, hflen]
      omega
    have hr : addSocketToMemory memory socket
        = socket :: memory.filter (fun s => s != socket) := by
      unfold addSocketToMemory
      rw [if_pos hc, if_neg hngt]
    have hnf : socket ∉ memory.filter (fun s => s != socket) := by
      intro hx
      have hbne := (List.mem_filter.mp hx).2
      simp at hbne
    refine ⟨by rw [hr]; rfl, ?_, ?_, ?_, ?_, ?_⟩
    · rw [hr]
      exact List.nodup_cons.mpr ⟨hnf, hnd.filter _⟩
    · rw [hr]
      simp only [List.length_cons, hflen]
      omega
    · intro _
      refine ⟨hr, ?_⟩
      intro x
      rw [hr]
      constructor
      · intro hx
        rcases List.mem_cons.mp hx with h1 | h1
        · exact h1 ▸ hm
        · exact (List.mem_filter.mp h1).1
      · intro hx
        by_cases hxs : x = socket
        · exact hxs ▸ List.mem_cons_self _ _
        · exact List.mem_cons_of_mem _ (List.mem_filter.mpr ⟨hx, by simp [hxs]⟩)
    · intro hns
      exact absurd hm hns
    · intro hns
      exact absurd hm hns
  · have hc : ¬ (memory.contains socket = true) := by simp [hm]
    have hr0 : addSocketToMemory memory socket
        = if (socket :: memory).length > 5 then (socket :: memory).dropLast
          else socket :: memory := by
      unfold addSocketToMemory
      rw [if_neg hc]
    by_cases h5 : memory.length = 5
    · obtain ⟨y, ys, rfl⟩ : ∃ y ys, memory = y :: ys := by
        cases memory with
        | nil => simp at h5
        | cons y ys => exact ⟨y, ys, rfl⟩
      have hr : addSocketToMemory (y :: ys) socket = socket :: (y :: ys).dropLast := by
        rw [hr0, if_pos]
        · rfl
        · simp only [List.length_cons] at h5 ⊢
          omega
      refine ⟨by rw [hr]; rfl, ?_, ?_, ?_, ?_, ?_⟩
      · rw [hr]
        refine List.nodup_cons.mpr ⟨?_, hnd.sublist (List.dropLast_sublist _)⟩
        intro hx
        exact hm ((List.dropLast_sublist (y :: ys)).subset hx)
      · rw [hr]
        simp only [List.length_cons, List.length_dropLast] at h5 ⊢
        omega
      · intro hin
        exact absurd hin hm
      · intro _ hlt
        omega
      · intro _ _
        exact hr
    · have hr : addSocketToMemory memory socket = socket :: memory := by
        rw [hr0, if_neg]
        simp only [List.length_cons]
        omega
      refine ⟨by rw [hr]; rfl, ?_, ?_, ?_, ?_, ?_⟩
      · rw [hr]
        exact List.nodup_cons.mpr ⟨hm, hnd⟩
      · rw [hr]
        simp only [List.length_cons]
        omega
      · intro hin
        exact absurd hin hm
      · intro _ _
        exact hr
      · intro _ h5x
        exact absurd h5x h5

/-- C6 witness: re-adding `"b"` to the list `["a", "b"]` moves it to the
front. -/
theorem c6_witness :
    List.Nodup ["a", "b"] ∧ List.length ["a", "b"] ≤ 5
  ∧ (addSocketToMemory ["a", "b"] "b").head? = some "b" :=
  ⟨by decide, by decide,
   (c6_recent_socket_list ["a", "b"] "b" (by decide) (by decide)).1⟩

/-- Rows after a line trimming to the `Done` sentinel never influence the
parse result: the lines following the first `Done` can be replaced freely. -/
theorem parse_stops_at_done (xs ys zs : List String) :
    parseSerialPortLines (xs ++ "Done" :: ys) = parseSerialPortLines (xs ++ "Done" :: zs) := by
  induction xs with
  | nil =>
      have h : jsTrim "Done" = "Done" := by decide
      simp [parseSerialPortLines, h]
  | cons l xs ih =>
      simp only [List.cons_append, parseSerialPortLines]
      split_ifs <;> simp [ih]

/-- C9: list-ports output with two header lines, the data row
`/dev/ttyUSB0   Silicon Labs` and a trailing `Done` line parses to exactly
one entry with path `/dev/ttyUSB0` and manufacturer `Silicon Labs`; rows
after the `Done` sentinel are never parsed; a data row with no
two-space separator yields an entry with no manufacturer. -/
theorem c9_parse_serial_ports :
    parseSerialPorts
        "Available serial ports:\n\n/dev/ttyUSB0   Silicon Labs\nDone\n/dev/ttyUSB1   FTDI"
      = [⟨"/dev/ttyUSB0", some "Silicon Labs"⟩]
  ∧ (∀ xs ys zs : List String,
      parseSerialPortLines (xs ++ "Done" :: ys) = parseSerialPortLines (xs ++ "Done" :: zs))
  ∧ parseSerialPorts "Available serial ports:\n\n/dev/ttyUSB0 single-space row\nDone"
      = [⟨"/dev/ttyUSB0 single-space row", none⟩] :=
  ⟨by decide, parse_stops_at_done, by decide⟩

/-- C10: `installJaculusBoardVersion` refuses up front — before any index
fetch, menu or dispatch — exactly when `selectedComPort` is JavaScript-falsy
(never selected), even when a socket is the active connection; when a COM
port was selected at some point, installation proceeds through the menus and
the dispatched `install` command uses whatever connection args
`getConnectedPort` yields for the active variant, which may be the socket. -/
theorem c10_install_guard (st : JaculusState) (c : InstallChoices) :
    (jsFalsyStr st.selectedComPort = true →
      installJaculusBoardVersion st c
        = (st, [InstallEffect.errorMsg "Please select a COM port before installing firmware"]))
  ∧ (∀ p sock url,
      st.selectedComPort = some p → p ≠ "" →
      st.lastSelectedConnection = some ConectionType.socket →
      st.selectedSocket = some sock →
      c.boardOrCustomUrl = some "Custom URL" →
      c.customUrlInput = some url → url ≠ "" →
      installJaculusBoardVersion st c
        = ((runJaculusCommandInTerminal st "install" ["--socket", sock]
              ["--package",
               "\"" ++ url ++ "\" " ++ (if c.noErase = some "No" then "--no-erase" else "")] true).1,
           [InstallEffect.fetchBoardsIndex, InstallEffect.quickPickBoard,
            InstallEffect.inputCustomUrl, InstallEffect.quickPickErase,
            InstallEffect.terminalDispatch
              ((runJaculusCommandInTerminal st "install" ["--socket", sock]
                ["--package",
                 "\"" ++ url ++ "\" " ++ (if c.noErase = some "No" then "--no-erase" else "")] true).2),
            InstallEffect.infoMsg ("Installing from " ++ url)])) := by
  constructor
  · intro h
    simp [installJaculusBoardVersion, h]
  · intro p sock url hp hpne hlast hsock hpick hurl hune
    have hport : getConnectedPort st = Except.ok ["--socket", sock] := by
      simp [getConnectedPort, hlast, hsock]
    have hfal : jsFalsyStr st.selectedComPort = false := by
      simp [jsFalsyStr, hp, hpne]
    simp [installJaculusBoardVersion, hfal, hpick, hurl, hune, installDispatch, hport]

/-- C10 witness: with no COM port ever selected but a socket active, the
install command refuses immediately; with a COM port on record and the
socket variant active, the install dispatch proceeds with the socket args. -/
theorem c10_witness :
    installJaculusBoardVersion
        ⟨none, some "10.0.0.1:17531", [], some ConectionType.socket,
         false, LogLevel.info, true, "npx jac"⟩
        ⟨[], some "Custom URL", some "https://example.com/fw.tar.gz", none, some "No"⟩
      = (⟨none, some "10.0.0.1:17531", [], some ConectionType.socket,
          false, LogLevel.info, true, "npx jac"⟩,
         [InstallEffect.errorMsg "Please select a COM port before installing firmware"])
  ∧ installJaculusBoardVersion
        ⟨some "/dev/ttyUSB0", some "10.0.0.1:17531", [], some ConectionType.socket,
         false, LogLevel.info, true, "npx jac"⟩
        ⟨[], some "Custom URL", some "https://example.com/fw.tar.gz", none, some "No"⟩
      = ((runJaculusCommandInTerminal
            ⟨some "/dev/ttyUSB0", some "10.0.0.1:17531", [], some ConectionType.socket,
             false, LogLevel.info, true, "npx jac"⟩
            "install" ["--socket", "10.0.0.1:17531"]
            ["--package",
             "\"" ++ "https://example.com/fw.tar.gz" ++ "\" " ++
               (if (some "No" : Option String) = some "No" then "--no-erase" else "")] true).1,
         [InstallEffect.fetchBoardsIndex, InstallEffect.quickPickBoard,
          InstallEffect.inputCustomUrl, InstallEffect.quickPickErase,
          InstallEffect.terminalDispatch
            ((runJaculusCommandInTerminal
              ⟨some "/dev/ttyUSB0", some "10.0.0.1:17531", [], some ConectionType.socket,
               false, LogLevel.info, true, "npx jac"⟩
              "install" ["--socket", "10.0.0.1:17531"]
              ["--package",
               "\"" ++ "https://example.com/fw.tar.gz" ++ "\" " ++
                 (if (some "No" : Option String) = some "No" then "--no-erase" else "")] true).2),
          InstallEffect.infoMsg ("Installing from " ++ "https://example.com/fw.tar.gz")]) :=
  ⟨(c10_install_guard _ _).1 (by decide),
   (c10_install_guard _ _).2 "/dev/ttyUSB0" "10.0.0.1:17531" "https://example.com/fw.tar.gz"
     rfl (by decide) rfl rfl rfl rfl (by decide)⟩
